import Mathlib

/-!
Verification development for the MultiAgent_AI_R news-production pipeline.

The development shallowly embeds the coordination logic of the repository:
the retry client of `ralf_proxy.py`, the orchestration loop of
`src/crew.py` (`NewsCrew.run`), the submission endpoint of `app.py`
(`generate_article`), and the markdown post-processor of
`src/formatting.py` (`format_news_article`).  Text-generation agents are
opaque oracles (`String → Except String String`): an `Except.error`
models a Python exception raised by the corresponding `kickoff()` call.
-/

namespace MultiAgentAI

/-! ## Python string primitives used by the embedded code -/

/-- Characters of Python's `\s` class (ASCII range), as used by
`str.strip()` and by the regex `\s` in `formatting.py`. -/
def pyIsSpace (c : Char) : Bool :=
  c == ' ' || c == '\t' || c == '\n' || c == '\r' ||
  c == Char.ofNat 11 || c == Char.ofNat 12

/-- ASCII uppercasing of a single character, modelling Python's
`str.upper` on the ASCII range (the verdict tokens are plain ASCII). -/
def pyUpperChar (c : Char) : Char :=
  if 'a' ≤ c ∧ c ≤ 'z' then Char.ofNat (c.toNat - 32) else c

/-- Python `s.upper()`, modelled characterwise. -/
def pyUpper (s : String) : String := String.mk (s.data.map pyUpperChar)

/-- Python slicing `s[:n]`: the first `n` characters of `s`. -/
def pyTake (n : Nat) (s : String) : String := String.mk (s.data.take n)

/-- Python `s.strip()`: remove leading and trailing whitespace. -/
def pyStrip (s : String) : String :=
  String.mk (((s.data.dropWhile pyIsSpace).reverse.dropWhile pyIsSpace).reverse)

/-- Does the character list begin with the given pattern list? -/
def startsWithL : List Char → List Char → Bool
  | _, [] => true
  | [], _ :: _ => false
  | c :: s, p :: ps => c == p && startsWithL s ps

/-- Does the character list contain the pattern as a contiguous sublist? -/
def containsL (pat : List Char) : List Char → Bool
  | [] => startsWithL [] pat
  | c :: t => startsWithL (c :: t) pat || containsL pat t

/-- Python's substring test `pat in s`. -/
def containsStr (s pat : String) : Bool := containsL pat.data s.data

/-! ## Resilient upstream client (`ralf_proxy.py`)

Configuration defaults of `ralf_proxy.py` lines 31-34 (the `.env`
fallback values).  Delays are modelled over `ℚ`. -/

/-- Default of `RALF_MAX_RETRIES`. -/
def MAX_RETRIES : Nat := 5

/-- Default of `RALF_BASE_DELAY` (seconds). -/
def BASE_DELAY : ℚ := 2

/-- Default of `RALF_MAX_DELAY` (seconds). -/
def MAX_DELAY : ℚ := 60

/-- Default of `RALF_JITTER_RANGE` (a relative factor). -/
def JITTER_RANGE : ℚ := 1/2

/-- The hard-coded lower clamp `0.5` of `max(0.5, delay + jitter)` in
`call_ralf_with_retry` (the spec's `MinDelay`). -/
def MIN_DELAY : ℚ := 1/2

/-- Line 81: `delay = min(MAX_DELAY, BASE_DELAY * (2**attempt))`. -/
def delayOf (attempt : Nat) : ℚ := min MAX_DELAY (BASE_DELAY * 2 ^ attempt)

/-- Line 82: `jitter = delay * JITTER_RANGE * (random.random() * 2 - 1)`;
the argument `r` stands for the jitter draw `random.random() * 2 - 1`,
which lies in `[-1, 1)`. -/
def jitterOf (attempt : Nat) (r : ℚ) : ℚ := delayOf attempt * JITTER_RANGE * r

/-- Line 83: `final_delay = max(0.5, delay + jitter)`. -/
def final_delay (attempt : Nat) (r : ℚ) : ℚ :=
  max MIN_DELAY (delayOf attempt + jitterOf attempt r)

/-- Outcome of one `requests.post` call: either an HTTP response with a
status code and a body text, or a raised `requests.RequestException`
with a message. -/
inductive Outcome where
  | resp (status_code : Nat) (text : String)
  | exc (message : String)
  deriving DecidableEq

/-- The error dictionary `{"error": ..., "status_code": ...}` built by
`call_ralf_with_retry`. -/
structure ErrInfo where
  error : String
  status_code : Nat
  deriving DecidableEq

/-- A successful HTTP response as far as the proxy inspects it. -/
structure RalfResponse where
  status_code : Nat
  text : String
  deriving DecidableEq

/-- Result of `call_ralf_with_retry`: the returned pair
`(response, error)` plus instrumentation recording how many loop
iterations ran (`attempts`) and how many `time.sleep` calls were
performed (`sleeps`). -/
structure CallOut where
  response : Option RalfResponse
  error : Option ErrInfo
  attempts : Nat
  sleeps : Nat
  deriving DecidableEq

/-- The `for attempt in range(MAX_RETRIES)` loop of
`call_ralf_with_retry` (lines 46-91).  `oc attempt` is the outcome of
the `requests.post` call of that attempt; `fuel` is the number of loop
iterations still permitted by `range(maxRetries)` (so the loop body runs
exactly while `fuel > 0`), and `lastError` carries the `last_error`
variable.  On exhaustion the function returns `(None, last_error)`. -/
def callAux (maxRetries : Nat) (oc : Nat → Outcome) :
    Nat → Nat → Option ErrInfo → CallOut
  | 0, _, lastError => ⟨none, lastError, 0, 0⟩
  | fuel + 1, attempt, _ =>
    match oc attempt with
    | Outcome.resp code text =>
      if 200 ≤ code ∧ code < 300 then
        ⟨some ⟨code, text⟩, none, 1, 0⟩
      else if 400 ≤ code ∧ code < 500 ∧ code ≠ 429 then
        ⟨none, some ⟨"Error cliente RALF: " ++ toString code ++ " - " ++ text, code⟩, 1, 0⟩
      else
        let le : Option ErrInfo :=
          some ⟨"Error temporal RALF: " ++ toString code ++ " - " ++ pyTake 200 text, code⟩
        let rest := callAux maxRetries oc fuel (attempt + 1) le
        ⟨rest.response, rest.error, rest.attempts + 1,
          rest.sleeps + (if attempt < maxRetries - 1 then 1 else 0)⟩
    | Outcome.exc m =>
        let le : Option ErrInfo := some ⟨"Excepción conexión RALF: " ++ m, 503⟩
        let rest := callAux maxRetries oc fuel (attempt + 1) le
        ⟨rest.response, rest.error, rest.attempts + 1,
          rest.sleeps + (if attempt < maxRetries - 1 then 1 else 0)⟩

/-- `call_ralf_with_retry` of `ralf_proxy.py`, parameterized by the
configured retry budget and by the per-attempt outcomes. -/
def call_ralf_with_retry (maxRetries : Nat) (oc : Nat → Outcome) : CallOut :=
  callAux maxRetries oc maxRetries 0 none

/-! ## Pipeline orchestrator (`src/crew.py`, `NewsCrew.run`)

The loop `while iteration < MAX_ITERATIONS` is embedded as structural
recursion on `fuel`, the number of successful loop-guard checks still
available (`fuel = MAX_ITERATIONS - iteration` at every call, enforced
by the entry point `NewsCrew_run`); the `iteration` counter itself is
carried exactly as in the source, which uses it in the inner
`if iteration < MAX_ITERATIONS` check and in the returned record. -/

/-- Line 774: `MAX_ITERATIONS = 3`. -/
def MAX_ITERATIONS : Nat := 3

/-- Socket.IO events emitted through `callbacks.py` during `run`: each
constructor carries the payload fields relevant here, truncated as in
`callbacks.py` (`task[:200]`, `output[:400]`, `feedback[:300]`,
`result[:500]`). -/
inductive Event where
  | agent_start (agent task : String)
  | agent_finish (agent output : String)
  | backtracking (feedback : String)
  | crew_finish (result : String)
  | errorEvent (message : String)
  deriving DecidableEq

/-- The dictionary returned by `NewsCrew.run`, with `Option` fields for
keys present only in some of the return statements. -/
structure RunResult where
  status : String
  topic : String
  article : Option String
  error : Option String
  iterations : Option Nat
  session_id : String
  deriving DecidableEq

/-- The four stage events emitted by one research→validate cycle:
`on_agent_start`/`on_agent_finish` around the Investigator kickoff and
around the Analyst kickoff (crew.py lines 800-806 and 858-864), with the
payload truncations of `callbacks.py`. -/
def stageEvents (topic investigation analysisRes : String) : List Event :=
  [Event.agent_start "Investigador de Noticias" (pyTake 200 ("Investigando: " ++ topic)),
   Event.agent_finish "Investigador de Noticias" (pyTake 400 investigation),
   Event.agent_start "Analista de Sesgos y Fact-Checker" (pyTake 200 "Analizando reporte..."),
   Event.agent_finish "Analista de Sesgos y Fact-Checker" (pyTake 400 analysisRes)]

/-- Body of `NewsCrew.run` (crew.py lines 781-958).  `inv`, `anal` and
`write` are the Investigator, Analyst and Writer kickoffs (an
`Except.error` models a raised exception, routed to the `except` handler
of lines 960-970, which emits `on_error` and returns the error record).
The function returns the result dictionary together with the list of
emitted events. -/
def runFrom (inv anal : String → Except String String)
    (write : String → String → Except String String)
    (sid : String) : String → Nat → Nat → RunResult × List Event
  | topic, _, 0 =>
    ({ status := "error", topic := topic, article := none,
       error := some ("No se logró aprobación después de " ++
         toString MAX_ITERATIONS ++ " iteraciones"),
       iterations := none, session_id := sid }, [])
  | topic, iteration, fuel + 1 =>
    match inv topic with
    | Except.error e =>
        ({ status := "error", topic := topic, article := none,
           error := some ("Error durante ejecución de crew: " ++ e),
           iterations := none, session_id := sid },
         [Event.agent_start "Investigador de Noticias"
            (pyTake 200 ("Investigando: " ++ topic)),
          Event.errorEvent ("Error durante ejecución de crew: " ++ e)])
    | Except.ok investigation =>
      match anal investigation with
      | Except.error e =>
          ({ status := "error", topic := topic, article := none,
             error := some ("Error durante ejecución de crew: " ++ e),
             iterations := none, session_id := sid },
           [Event.agent_start "Investigador de Noticias"
              (pyTake 200 ("Investigando: " ++ topic)),
            Event.agent_finish "Investigador de Noticias" (pyTake 400 investigation),
            Event.agent_start "Analista de Sesgos y Fact-Checker"
              (pyTake 200 "Analizando reporte..."),
            Event.errorEvent ("Error durante ejecución de crew: " ++ e)])
      | Except.ok analysisRes =>
        let analysisText := pyUpper analysisRes
        if containsStr analysisText "APROBADO" && !containsStr analysisText "RECHAZADO" then
          match write investigation analysisRes with
          | Except.error e =>
              ({ status := "error", topic := topic, article := none,
                 error := some ("Error durante ejecución de crew: " ++ e),
                 iterations := none, session_id := sid },
               stageEvents topic investigation analysisRes ++
                 [Event.agent_start "Redactor Senior"
                    (pyTake 200 "Escribiendo artículo final..."),
                  Event.errorEvent ("Error durante ejecución de crew: " ++ e)])
          | Except.ok finalArticle =>
              ({ status := "success", topic := topic, article := some finalArticle,
                 error := none, iterations := some (iteration + 1), session_id := sid },
               stageEvents topic investigation analysisRes ++
                 [Event.agent_start "Redactor Senior"
                    (pyTake 200 "Escribiendo artículo final..."),
                  Event.agent_finish "Redactor Senior" (pyTake 400 "Artículo finalizado"),
                  Event.crew_finish (pyTake 500 finalArticle)])
        else if containsStr analysisText "RECHAZADO" then
          if iteration + 1 < MAX_ITERATIONS then
            let rest := runFrom inv anal write sid
              (topic ++ " (REFINAMIENTO: " ++ pyTake 200 analysisRes ++ ")")
              (iteration + 1) fuel
            (rest.1, stageEvents topic investigation analysisRes ++
              Event.backtracking (pyTake 300 analysisRes) :: rest.2)
          else
            ({ status := "error", topic := topic, article := none,
               error := some ("Contenido rechazado después de " ++
                 toString MAX_ITERATIONS ++ " intentos. Último feedback: " ++ analysisRes),
               iterations := none, session_id := sid },
             stageEvents topic investigation analysisRes)
        else
          let rest := runFrom inv anal write sid topic (iteration + 1) fuel
          (rest.1, stageEvents topic investigation analysisRes ++ rest.2)

/-- `NewsCrew.run`: the loop entered with `iteration = 0` and
`MAX_ITERATIONS` loop-guard successes available. -/
def NewsCrew_run (inv anal : String → Except String String)
    (write : String → String → Except String String)
    (sid topic : String) : RunResult × List Event :=
  runFrom inv anal write sid topic 0 MAX_ITERATIONS

/-- Number of `agent_start` events for the Investigator in a trace: one
per research→validate cycle. -/
def investigatorStarts (evs : List Event) : Nat :=
  evs.countP (fun e => match e with
    | Event.agent_start a _ => a == "Investigador de Noticias"
    | _ => false)

/-- Number of `agent_start` events for the Writer (Composer stage). -/
def composerStarts (evs : List Event) : Nat :=
  evs.countP (fun e => match e with
    | Event.agent_start a _ => a == "Redactor Senior"
    | _ => false)

/-- Number of `backtracking` events in a trace. -/
def backtrackCount (evs : List Event) : Nat :=
  evs.countP (fun e => match e with
    | Event.backtracking _ => true
    | _ => false)

/-- Verdict classification vocabulary of the spec (§3, Cycle Record). -/
inductive Verdict where
  | approved
  | rejected
  | ambiguous
  deriving DecidableEq

/-- The spec's verdict-parsing rule (§4.4 step c), stated in the spec's
own words: uppercase the full text; if it contains the approval token
and not the rejection token, Approved; else if it contains the rejection
token, Rejected; else Ambiguous.  Used to compare the spec's rule with
the branching of `runFrom`. -/
def specParseVerdict (t : String) : Verdict :=
  let up := pyUpper t
  if containsStr up "APROBADO" && !containsStr up "RECHAZADO" then Verdict.approved
  else if containsStr up "RECHAZADO" then Verdict.rejected
  else Verdict.ambiguous

/-! ## Submission endpoint (`app.py`, `generate_article`) -/

/-- An entry of the `active_sessions` registry as created by
`/api/generate` (app.py lines 157-161). -/
structure SessionEntry where
  topic : String
  started_at : String
  status : String
  deriving DecidableEq

/-- The JSON body and HTTP status returned by `/api/generate`. -/
structure GenResponse where
  http_status : Nat
  status : String
  message : String
  session_id : Option String
  topic : Option String
  deriving DecidableEq

/-- `generate_article` of `app.py` (lines 133-180).  `body` models the
parsed request JSON: `none` for a missing/empty body (falsy `data`),
`some none` for a JSON object without a `"topic"` key, and
`some (some t)` for a body with topic string `t`.  `newId` stands for
the `uuid.uuid4()` draw and `now` for `datetime.now().isoformat()`;
`sessions` is the `active_sessions` registry, returned updated. -/
def generate_article (body : Option (Option String)) (now newId : String)
    (sessions : List (String × SessionEntry)) :
    GenResponse × List (String × SessionEntry) :=
  match body with
  | none =>
      (⟨400, "error", "Campo \"topic\" requerido en el body", none, none⟩, sessions)
  | some none =>
      (⟨400, "error", "Campo \"topic\" requerido en el body", none, none⟩, sessions)
  | some (some raw) =>
      let topic := pyStrip raw
      if topic = "" then
        (⟨400, "error", "El tema no puede estar vacío", none, none⟩, sessions)
      else
        (⟨202, "started",
          "Generación iniciada. Conéctate al namespace /agents con este session_id",
          some newId, some topic⟩,
         (newId, ⟨topic, now, "running"⟩) :: sessions)

/-! ## Markdown post-processor (`src/formatting.py`)

Each `re.sub` of `format_news_article` is embedded as a left-to-right
scanner producing the same non-overlapping replacements; all operate on
`List Char`. -/

/-- Python's `str.isalnum` restricted to the alphabet this code meets:
ASCII alphanumerics plus the Spanish accented letters that appear in the
sibling regexes. -/
def pyIsAlnum (c : Char) : Bool :=
  c.isAlphanum || ['á', 'é', 'í', 'ó', 'ú', 'ñ', 'Á', 'É', 'Í', 'Ó', 'Ú', 'Ñ'].contains c

/-- The character class `[a-záéíóúñ]` of formatting.py line 68. -/
def isLowerEs (c : Char) : Bool :=
  ('a' ≤ c && c ≤ 'z') || ['á', 'é', 'í', 'ó', 'ú', 'ñ'].contains c

/-- The character class `[A-ZÁÉÍÓÚÑ]` of formatting.py line 68. -/
def isUpperEs (c : Char) : Bool :=
  ('A' ≤ c && c ≤ 'Z') || ['Á', 'É', 'Í', 'Ó', 'Ú', 'Ñ'].contains c

/-- The character class `[A-Z]` of formatting.py line 58. -/
def isUpperAZ (c : Char) : Bool := 'A' ≤ c && c ≤ 'Z'

/-- Step 0, `re.sub(r"\s+", " ", ...)`: collapse each maximal whitespace
run to a single space.  The flag records whether the previous character
belonged to a whitespace run. -/
def normWS : List Char → Bool → List Char
  | [], _ => []
  | c :: rest, inRun =>
    if pyIsSpace c then
      if inRun then normWS rest true else ' ' :: normWS rest true
    else c :: normWS rest false

/-- Length of the leading run of `'#'` characters, and the remainder. -/
def hashSpan : List Char → Nat × List Char
  | [] => (0, [])
  | c :: r => if c = '#' then ((hashSpan r).1 + 1, (hashSpan r).2) else (0, c :: r)

theorem hashSpan_length (l : List Char) :
    (hashSpan l).1 + (hashSpan l).2.length = l.length := by
  induction l with
  | nil => simp [hashSpan]
  | cons c r ih =>
    by_cases hc : c = '#'
    · simp [hashSpan, hc]; omega
    · simp [hashSpan, hc]

theorem hashSpan_tail_lt {l r2 : List Char} {n : Nat}
    (h : hashSpan l = (n + 1, ' ' :: r2)) : r2.length < l.length := by
  have hlen := hashSpan_length l
  rw [h] at hlen
  simp at hlen
  omega

/-- Step 1, `re.sub(r"([^\n])(#+ )", r"\1\n\n\2", ...)`: a non-newline
character directly followed by a `'#'` run and a space gets two newlines
inserted after it; scanning resumes after the consumed `#+ `. -/
def subHeading (l : List Char) : List Char :=
  match l with
  | [] => []
  | c :: rest =>
    if c = '\n' then c :: subHeading rest
    else
      match h1 : hashSpan rest with
      | (n + 1, ' ' :: r2) =>
          c :: '\n' :: '\n' ::
            (List.replicate (n + 1) '#' ++ ' ' :: subHeading r2)
      | _ => c :: subHeading rest
  termination_by l.length
  decreasing_by
  all_goals simp_wf
  all_goals try (have hlt := hashSpan_tail_lt h1; omega)
  all_goals omega

/-- Step 2, `re.sub(r"([^\n])(> )", r"\1\n\n\2", ...)`. -/
def subQuote : List Char → List Char
  | c :: '>' :: ' ' :: rest =>
      if c = '\n' then c :: subQuote ('>' :: ' ' :: rest)
      else c :: '\n' :: '\n' :: '>' :: ' ' :: subQuote rest
  | c :: rest => c :: subQuote rest
  | [] => []

/-- Step 3a, `re.sub(r"([^\n])(- \*\*)", r"\1\n\n\2", ...)`. -/
def subListBold : List Char → List Char
  | c :: '-' :: ' ' :: '*' :: '*' :: rest =>
      if c = '\n' then c :: subListBold ('-' :: ' ' :: '*' :: '*' :: rest)
      else c :: '\n' :: '\n' :: '-' :: ' ' :: '*' :: '*' :: subListBold rest
  | c :: rest => c :: subListBold rest
  | [] => []

/-- Step 3b, `re.sub(r"([^\n])(- [A-Z])", r"\1\n\n\2", ...)`. -/
def subListUpper : List Char → List Char
  | c :: '-' :: ' ' :: u :: rest =>
      if c ≠ '\n' ∧ isUpperAZ u then
        c :: '\n' :: '\n' :: '-' :: ' ' :: u :: subListUpper rest
      else c :: subListUpper ('-' :: ' ' :: u :: rest)
  | c :: rest => c :: subListUpper rest
  | [] => []

/-- Step 5a, `re.sub(r"([^\n])(---)", r"\1\n\n\2", ...)`. -/
def subDashBefore : List Char → List Char
  | c :: '-' :: '-' :: '-' :: rest =>
      if c = '\n' then c :: subDashBefore ('-' :: '-' :: '-' :: rest)
      else c :: '\n' :: '\n' :: '-' :: '-' :: '-' :: subDashBefore rest
  | c :: rest => c :: subDashBefore rest
  | [] => []

/-- Step 5b, `re.sub(r"(---)([^\n])", r"\1\n\n\2", ...)`. -/
def subDashAfter : List Char → List Char
  | '-' :: '-' :: '-' :: c :: rest =>
      if c = '\n' then '-' :: subDashAfter ('-' :: '-' :: c :: rest)
      else '-' :: '-' :: '-' :: '\n' :: '\n' :: c :: subDashAfter rest
  | c :: rest => c :: subDashAfter rest
  | [] => []

/-- Step 6, `re.sub(r"([a-záéíóúñ])([A-ZÁÉÍÓÚÑ])", r"\1\n\n\2", ...)`. -/
def subCamel : List Char → List Char
  | a :: b :: rest =>
      if isLowerEs a ∧ isUpperEs b then a :: '\n' :: '\n' :: b :: subCamel rest
      else a :: subCamel (b :: rest)
  | l => l

/-- Step 7, `re.sub(r"\n{3,}", "\n\n", ...)`: cap every maximal newline
run at two newlines (runs of one or two are left intact, longer runs
become exactly two).  `run` counts the newlines just emitted, capped
use at 2. -/
def collapseNL : List Char → Nat → List Char
  | [], _ => []
  | c :: rest, run =>
    if c = '\n' then
      if 2 ≤ run then collapseNL rest run
      else '\n' :: collapseNL rest (run + 1)
    else c :: collapseNL rest 0

/-- The separator `fix_bold_spacing` places between parts `p` and `q`
(formatting.py lines 18-34): `even` tells whether `p` has an even index
(an opening `**`). -/
def fixBoldSep (even : Bool) (p q : String) : String :=
  if even then
    match p.data.getLast? with
    | some c => if pyIsAlnum c then "\n\n**" else "**"
    | none => "**"
  else
    match q.data.head? with
    | some c => if pyIsAlnum c then "**\n\n" else "**"
    | none => "**"

/-- Rebuild the parts list with separators (the `result` accumulation of
`fix_bold_spacing`). -/
def fixBoldJoin : List String → Bool → String
  | [], _ => ""
  | [p], _ => p
  | p :: q :: rest, even => p ++ fixBoldSep even p q ++ fixBoldJoin (q :: rest) (!even)

/-- `fix_bold_spacing` of formatting.py (lines 4-36). -/
def fix_bold_spacing (text : String) : String :=
  let parts := text.splitOn "**"
  if parts.length < 2 then text else fixBoldJoin parts true

/-- `format_news_article` of formatting.py (lines 39-73). -/
def format_news_article (raw_text : String) : String :=
  if raw_text = "" then ""
  else
    let f0 := String.mk (normWS raw_text.data false)
    let f1 := String.mk (subHeading f0.data)
    let f2 := String.mk (subQuote f1.data)
    let f3a := String.mk (subListBold f2.data)
    let f3b := String.mk (subListUpper f3a.data)
    let f4 := fix_bold_spacing f3b
    let f5a := String.mk (subDashBefore f4.data)
    let f5b := String.mk (subDashAfter f5a.data)
    let f6 := String.mk (subCamel f5b.data)
    String.mk (collapseNL f6.data 0)

/-- Three consecutive newline characters occur somewhere in the list. -/
def hasTripleNL : List Char → Bool
  | a :: b :: c :: rest =>
      (a == '\n' && b == '\n' && c == '\n') || hasTripleNL (b :: c :: rest)
  | _ => false

/-! ## Supporting lemmas -/

theorem length_append_pos_left (s t : String) (h : 0 < s.length) :
    0 < (s ++ t).length := by
  rw [String.length_append]; omega

theorem append_ne_empty_left (s t : String) (h : 0 < s.length) : s ++ t ≠ "" := by
  intro he
  have hlen := congrArg String.length he
  rw [String.length_append] at hlen
  have h0 : ("" : String).length = 0 := rfl
  omega

theorem hasTripleNL_cons (c : Char) (t : List Char) (hc : c ≠ '\n') :
    hasTripleNL (c :: t) = hasTripleNL t := by
  have hb : (c == '\n') = false := by simp [hc]
  cases t with
  | nil => simp [hasTripleNL]
  | cons b t' =>
    cases t' with
    | nil => simp [hasTripleNL]
    | cons d r => simp [hasTripleNL, hb]

theorem hasTripleNL_nl_cons (c : Char) (t : List Char) (hc : c ≠ '\n') :
    hasTripleNL ('\n' :: c :: t) = hasTripleNL t := by
  have hb : (c == '\n') = false := by simp [hc]
  cases t with
  | nil => simp [hasTripleNL]
  | cons d r =>
    rw [show hasTripleNL ('\n' :: c :: d :: r) =
        (('\n' == '\n' && c == '\n' && d == '\n') || hasTripleNL (c :: d :: r)) from rfl]
    simp [hb]
    rw [hasTripleNL_cons c (d :: r) hc]

theorem hasTripleNL_nl_nl_cons (c : Char) (t : List Char) (hc : c ≠ '\n') :
    hasTripleNL ('\n' :: '\n' :: c :: t) = hasTripleNL t := by
  have hb : (c == '\n') = false := by simp [hc]
  rw [show hasTripleNL ('\n' :: '\n' :: c :: t) =
      (('\n' == '\n' && '\n' == '\n' && c == '\n') || hasTripleNL ('\n' :: c :: t)) from rfl]
  simp [hb]
  rw [hasTripleNL_nl_cons c t hc]

theorem collapseNL_no_triple (l : List Char) :
    ∀ run, hasTripleNL (List.replicate (min run 2) '\n' ++ collapseNL l run) = false := by
  induction l with
  | nil =>
    intro run
    have h3 : min run 2 = 0 ∨ min run 2 = 1 ∨ min run 2 = 2 := by omega
    rcases h3 with h | h | h <;> simp [collapseNL, h] <;> decide
  | cons c rest ih =>
    intro run
    by_cases hc : c = '\n'
    · subst hc
      by_cases hrun : 2 ≤ run
      · have hcol : collapseNL ('\n' :: rest) run = collapseNL rest run := by
          simp [collapseNL, hrun]
        rw [hcol]; exact ih run
      · have hcol : collapseNL ('\n' :: rest) run = '\n' :: collapseNL rest (run + 1) := by
          simp [collapseNL, hrun]
        have h01 : run = 0 ∨ run = 1 := by omega
        rcases h01 with h | h <;> subst h <;> rw [hcol]
        · simpa using ih 1
        · simpa using ih 2
    · have hcol : collapseNL (c :: rest) run = c :: collapseNL rest 0 := by
        simp [collapseNL, hc]
      rw [hcol]
      have base := ih 0
      simp at base
      have h3 : min run 2 = 0 ∨ min run 2 = 1 ∨ min run 2 = 2 := by omega
      rcases h3 with h | h | h <;> rw [h]
      · simpa [hasTripleNL_cons c _ hc] using base
      · simp only [List.replicate, List.cons_append, List.nil_append]
        rw [hasTripleNL_nl_cons c _ hc]; exact base
      · simp only [List.replicate, List.cons_append, List.nil_append]
        rw [hasTripleNL_nl_nl_cons c _ hc]; exact base

theorem collapseNL_string_no_triple (x : List Char) :
    hasTripleNL (String.mk (collapseNL x 0)).data = false := by
  simpa using collapseNL_no_triple x 0

/-! ## Claim C10 -/

/-- C10: `format_news_article` is total (it is a Lean function), its
output never contains three or more consecutive newline characters, and
the empty input yields the empty string. -/
theorem c10_format_news_article_no_triple_newlines (s : String) :
    hasTripleNL (format_news_article s).data = false ∧ format_news_article "" = "" := by
  constructor
  · by_cases h : s = ""
    · subst h; decide
    · rw [format_news_article, if_neg h]
      exact collapseNL_string_no_triple _
  · rfl

/-! ## Resilient client lemmas -/

theorem callAux_attempts_le (maxR : Nat) (oc : Nat → Outcome) :
    ∀ fuel attempt le, (callAux maxR oc fuel attempt le).attempts ≤ fuel := by
  intro fuel
  induction fuel with
  | zero => intro attempt le; simp [callAux]
  | succ n ih =>
    intro attempt le
    cases hoc : oc attempt with
    | resp code text =>
      by_cases h1 : 200 ≤ code ∧ code < 300
      · simp [callAux, hoc, h1]
      · by_cases h2 : 400 ≤ code ∧ code < 500 ∧ code ≠ 429
        · simp [callAux, hoc, h1, h2]
        · simp only [callAux, hoc, if_neg h1, if_neg h2]
          have := ih (attempt + 1)
            (some ⟨"Error temporal RALF: " ++ toString code ++ " - " ++ pyTake 200 text, code⟩)
          omega
    | exc m =>
      simp only [callAux, hoc]
      have := ih (attempt + 1) (some ⟨"Excepción conexión RALF: " ++ m, 503⟩)
      omega

theorem callAux_exclusive (maxR : Nat) (oc : Nat → Outcome) :
    ∀ fuel attempt (le : Option ErrInfo),
      (le = none → 1 ≤ fuel) → (∀ e, le = some e → e.error ≠ "") →
      ((callAux maxR oc fuel attempt le).response.isSome = true ∧
        (callAux maxR oc fuel attempt le).error = none) ∨
      ((callAux maxR oc fuel attempt le).response = none ∧
        ∃ e, (callAux maxR oc fuel attempt le).error = some e ∧ e.error ≠ "") := by
  intro fuel
  induction fuel with
  | zero =>
    intro attempt le hn hs
    cases le with
    | none => exact absurd (hn rfl) (by omega)
    | some e =>
      right
      refine ⟨by simp [callAux], e, by simp [callAux], hs e rfl⟩
  | succ n ih =>
    intro attempt le hn hs
    cases hoc : oc attempt with
    | resp code text =>
      by_cases h1 : 200 ≤ code ∧ code < 300
      · left; simp [callAux, hoc, h1]
      · by_cases h2 : 400 ≤ code ∧ code < 500 ∧ code ≠ 429
        · right
          have hcall : callAux maxR oc (n + 1) attempt le =
              ⟨none, some ⟨"Error cliente RALF: " ++ toString code ++ " - " ++ text, code⟩,
                1, 0⟩ := by
            simp [callAux, hoc, h1, h2]
          rw [hcall]
          exact ⟨rfl, _, rfl, append_ne_empty_left _ _
            (length_append_pos_left _ _ (length_append_pos_left _ _ (by decide)))⟩
        · have hrec := ih (attempt + 1)
            (some ⟨"Error temporal RALF: " ++ toString code ++ " - " ++ pyTake 200 text, code⟩)
            (by intro h; cases h)
            (by
              intro e he
              cases he
              exact append_ne_empty_left _ _
                (length_append_pos_left _ _ (length_append_pos_left _ _ (by decide))))
          simp only [callAux, hoc, if_neg h1, if_neg h2]
          exact hrec
    | exc m =>
      have hrec := ih (attempt + 1) (some ⟨"Excepción conexión RALF: " ++ m, 503⟩)
        (by intro h; cases h)
        (by intro e he; cases he; exact append_ne_empty_left _ _ (by decide))
      simp only [callAux, hoc]
      exact hrec

/-! ## Claim C5 -/

/-- C5: for every attempt index below `MAX_RETRIES` and every jitter
draw `r ∈ [-1, 1]`, the computed sleep duration equals
`max(MIN_DELAY, d + d * JITTER_RANGE * r)` with
`d = min(MAX_DELAY, BASE_DELAY * 2 ^ attempt)`, hence lies in
`[MIN_DELAY, MAX_DELAY + MAX_DELAY * JITTER_RANGE]`; and the number of
loop iterations of `call_ralf_with_retry` never exceeds `MAX_RETRIES`. -/
theorem c5_backoff_delay_bounds (a : Nat) (r : ℚ) (oc : Nat → Outcome)
    (ha : a < MAX_RETRIES) (hr1 : -1 ≤ r) (hr2 : r ≤ 1) :
    final_delay a r = max MIN_DELAY (min MAX_DELAY (BASE_DELAY * 2 ^ a)
        + min MAX_DELAY (BASE_DELAY * 2 ^ a) * JITTER_RANGE * r)
    ∧ MIN_DELAY ≤ final_delay a r
    ∧ final_delay a r ≤ MAX_DELAY + MAX_DELAY * JITTER_RANGE
    ∧ (call_ralf_with_retry MAX_RETRIES oc).attempts ≤ MAX_RETRIES := by
  refine ⟨rfl, le_max_left _ _, ?_, callAux_attempts_le MAX_RETRIES oc MAX_RETRIES 0 none⟩
  have hd0 : 0 ≤ delayOf a := by
    apply le_min
    · unfold MAX_DELAY; norm_num
    · unfold BASE_DELAY; positivity
  have hd60 : delayOf a ≤ MAX_DELAY := min_le_left _ _
  unfold final_delay jitterOf
  apply max_le
  · unfold MIN_DELAY MAX_DELAY JITTER_RANGE; norm_num
  · unfold MAX_DELAY JITTER_RANGE at *
    nlinarith [hd0, hd60, hr1, hr2]

/-- Witness for C5 at attempt 1, jitter draw 1/2. -/
theorem c5_witness :
    MIN_DELAY ≤ final_delay 1 (1/2) ∧
    final_delay 1 (1/2) ≤ MAX_DELAY + MAX_DELAY * JITTER_RANGE :=
  ⟨(c5_backoff_delay_bounds 1 (1/2) (fun _ => Outcome.resp 200 "OK")
      (by decide) (by norm_num) (by norm_num)).2.1,
   (c5_backoff_delay_bounds 1 (1/2) (fun _ => Outcome.resp 200 "OK")
      (by decide) (by norm_num) (by norm_num)).2.2.1⟩

/-! ## Claim C6 -/

/-- C6: a 4xx status other than 429 on the first attempt makes
`call_ralf_with_retry` return immediately as a client error: one loop
iteration, no sleep, no response, and the client-error dictionary. -/
theorem c6_client_error_no_retry (maxR : Nat) (oc : Nat → Outcome)
    (code : Nat) (text : String) (hm : 1 ≤ maxR)
    (h0 : oc 0 = Outcome.resp code text)
    (h4 : 400 ≤ code) (h5 : code < 500) (h9 : code ≠ 429) :
    call_ralf_with_retry maxR oc =
      { response := none,
        error := some ⟨"Error cliente RALF: " ++ toString code ++ " - " ++ text, code⟩,
        attempts := 1, sleeps := 0 } := by
  obtain ⟨fuel, rfl⟩ : ∃ fuel, maxR = fuel + 1 := ⟨maxR - 1, by omega⟩
  unfold call_ralf_with_retry
  have hns : ¬ (200 ≤ code ∧ code < 300) := by omega
  simp [callAux, h0, hns, h4, h5, h9]

/-- Witness for C6: a 404 on the first attempt with retry budget 5. -/
theorem c6_witness :
    call_ralf_with_retry 5 (fun _ => Outcome.resp 404 "NOT FOUND") =
      { response := none,
        error := some ⟨"Error cliente RALF: " ++ toString 404 ++ " - " ++ "NOT FOUND", 404⟩,
        attempts := 1, sleeps := 0 } :=
  c6_client_error_no_retry 5 (fun _ => Outcome.resp 404 "NOT FOUND") 404 "NOT FOUND"
    (by decide) rfl (by decide) (by decide) (by decide)

/-! ## Claim C9 -/

/-- C9: for any retry budget of at least one, `call_ralf_with_retry`
returns exactly one of response and error: a present response with no
error, or no response with a non-empty error. -/
theorem c9_response_error_exclusive (maxR : Nat) (oc : Nat → Outcome) (hm : 1 ≤ maxR) :
    ((call_ralf_with_retry maxR oc).response.isSome = true ∧
      (call_ralf_with_retry maxR oc).error = none) ∨
    ((call_ralf_with_retry maxR oc).response = none ∧
      ∃ e, (call_ralf_with_retry maxR oc).error = some e ∧ e.error ≠ "") :=
  callAux_exclusive maxR oc maxR 0 none (fun _ => hm) (fun _ he => by cases he)

/-- Witness for C9 with budget 5 and an immediately succeeding call. -/
theorem c9_witness :
    ((call_ralf_with_retry 5 (fun _ => Outcome.resp 200 "OK")).response.isSome = true ∧
      (call_ralf_with_retry 5 (fun _ => Outcome.resp 200 "OK")).error = none) ∨
    ((call_ralf_with_retry 5 (fun _ => Outcome.resp 200 "OK")).response = none ∧
      ∃ e, (call_ralf_with_retry 5 (fun _ => Outcome.resp 200 "OK")).error = some e ∧
        e.error ≠ "") :=
  c9_response_error_exclusive 5 (fun _ => Outcome.resp 200 "OK") (by decide)

/-! ## Orchestrator branch lemmas

One lemma per branch of the `run` loop body, each assuming the oracle
values of the current cycle. -/

theorem runFrom_approved (inv anal : String → Except String String)
    (write : String → String → Except String String)
    (sid topic : String) (iteration fuel fuel' : Nat) (r a : String)
    (hf : fuel = fuel' + 1)
    (hinv : inv topic = Except.ok r) (hanal : anal r = Except.ok a)
    (happr : (containsStr (pyUpper a) "APROBADO" &&
      !containsStr (pyUpper a) "RECHAZADO") = true) :
    runFrom inv anal write sid topic iteration fuel =
      match write r a with
      | Except.error e =>
          ({ status := "error", topic := topic, article := none,
             error := some ("Error durante ejecución de crew: " ++ e),
             iterations := none, session_id := sid },
           stageEvents topic r a ++
             [Event.agent_start "Redactor Senior"
                (pyTake 200 "Escribiendo artículo final..."),
              Event.errorEvent ("Error durante ejecución de crew: " ++ e)])
      | Except.ok finalArticle =>
          ({ status := "success", topic := topic, article := some finalArticle,
             error := none, iterations := some (iteration + 1), session_id := sid },
           stageEvents topic r a ++
             [Event.agent_start "Redactor Senior"
                (pyTake 200 "Escribiendo artículo final..."),
              Event.agent_finish "Redactor Senior" (pyTake 400 "Artículo finalizado"),
              Event.crew_finish (pyTake 500 finalArticle)]) := by
  subst hf
  cases hw : write r a <;>
    simp [runFrom, hinv, hanal, happr, hw]

theorem runFrom_rejected_continue (inv anal : String → Except String String)
    (write : String → String → Except String String)
    (sid topic : String) (iteration fuel fuel' : Nat) (r a : String)
    (hf : fuel = fuel' + 1)
    (hinv : inv topic = Except.ok r) (hanal : anal r = Except.ok a)
    (hrej : containsStr (pyUpper a) "RECHAZADO" = true)
    (hit : iteration + 1 < MAX_ITERATIONS) :
    runFrom inv anal write sid topic iteration fuel =
      ((runFrom inv anal write sid
          (topic ++ " (REFINAMIENTO: " ++ pyTake 200 a ++ ")") (iteration + 1) fuel').1,
        stageEvents topic r a ++
          Event.backtracking (pyTake 300 a) ::
            (runFrom inv anal write sid
              (topic ++ " (REFINAMIENTO: " ++ pyTake 200 a ++ ")") (iteration + 1) fuel').2) := by
  subst hf
  simp [runFrom, hinv, hanal, hrej, hit]

theorem runFrom_rejected_final (inv anal : String → Except String String)
    (write : String → String → Except String String)
    (sid topic : String) (iteration fuel fuel' : Nat) (r a : String)
    (hf : fuel = fuel' + 1)
    (hinv : inv topic = Except.ok r) (hanal : anal r = Except.ok a)
    (hrej : containsStr (pyUpper a) "RECHAZADO" = true)
    (hit : ¬ iteration + 1 < MAX_ITERATIONS) :
    runFrom inv anal write sid topic iteration fuel =
      ({ status := "error", topic := topic, article := none,
         error := some ("Contenido rechazado después de " ++
           toString MAX_ITERATIONS ++ " intentos. Último feedback: " ++ a),
         iterations := none, session_id := sid },
       stageEvents topic r a) := by
  subst hf
  simp [runFrom, hinv, hanal, hrej, hit]

theorem runFrom_ambiguous (inv anal : String → Except String String)
    (write : String → String → Except String String)
    (sid topic : String) (iteration fuel fuel' : Nat) (r a : String)
    (hf : fuel = fuel' + 1)
    (hinv : inv topic = Except.ok r) (hanal : anal r = Except.ok a)
    (hA : containsStr (pyUpper a) "APROBADO" = false)
    (hR : containsStr (pyUpper a) "RECHAZADO" = false) :
    runFrom inv anal write sid topic iteration fuel =
      ((runFrom inv anal write sid topic (iteration + 1) fuel').1,
        stageEvents topic r a ++
          (runFrom inv anal write sid topic (iteration + 1) fuel').2) := by
  subst hf
  simp [runFrom, hinv, hanal, hA, hR]

/-! ## Claim C1 -/

/-- C1: the verdict classification follows the spec's rule — on the
uppercased Validator text, Approved exactly when the approval token is
present and the rejection token absent, Rejected exactly when the
rejection token is present, Ambiguous exactly when neither token is
present — and on an Approved verdict the run proceeds directly to the
Composer stage (a `Redactor Senior` stage-start follows the cycle's
stage events). -/
theorem c1_verdict_parsing_rule (inv anal : String → Except String String)
    (write : String → String → Except String String)
    (sid topic : String) (iteration fuel : Nat) (r a : String)
    (hinv : inv topic = Except.ok r) (hanal : anal r = Except.ok a) :
    (specParseVerdict a = Verdict.approved ↔
      (containsStr (pyUpper a) "APROBADO" = true ∧
        containsStr (pyUpper a) "RECHAZADO" = false))
    ∧ (specParseVerdict a = Verdict.rejected ↔
        containsStr (pyUpper a) "RECHAZADO" = true)
    ∧ (specParseVerdict a = Verdict.ambiguous ↔
        (containsStr (pyUpper a) "APROBADO" = false ∧
          containsStr (pyUpper a) "RECHAZADO" = false))
    ∧ (specParseVerdict a = Verdict.approved →
        ∃ tail, (runFrom inv anal write sid topic iteration (fuel + 1)).2 =
          stageEvents topic r a ++
            Event.agent_start "Redactor Senior"
              (pyTake 200 "Escribiendo artículo final...") :: tail) := by
  refine ⟨?_, ?_, ?_, ?_⟩
  · cases hA : containsStr (pyUpper a) "APROBADO" <;>
      cases hR : containsStr (pyUpper a) "RECHAZADO" <;>
      simp [specParseVerdict, hA, hR]
  · cases hA : containsStr (pyUpper a) "APROBADO" <;>
      cases hR : containsStr (pyUpper a) "RECHAZADO" <;>
      simp [specParseVerdict, hA, hR]
  · cases hA : containsStr (pyUpper a) "APROBADO" <;>
      cases hR : containsStr (pyUpper a) "RECHAZADO" <;>
      simp [specParseVerdict, hA, hR]
  · intro hv
    cases hA : containsStr (pyUpper a) "APROBADO" <;>
      cases hR : containsStr (pyUpper a) "RECHAZADO" <;>
      simp [specParseVerdict, hA, hR] at hv
    rw [runFrom_approved inv anal write sid topic iteration (fuel + 1) fuel r a rfl
      hinv hanal (by simp [hA, hR])]
    cases hw : write r a <;> simp [hw]

/-- Witness for C1: the spec's concrete scenario
`"VEREDICTO: APROBADO"` is classified Approved and the pipeline
proceeds to the Composer. -/
theorem c1_witness :
    ∃ tail,
      (runFrom (fun _ => Except.ok "INFORME") (fun _ => Except.ok "VEREDICTO: APROBADO")
        (fun _ _ => Except.ok "ART") "S" "TEMA" 0 (2 + 1)).2 =
      stageEvents "TEMA" "INFORME" "VEREDICTO: APROBADO" ++
        Event.agent_start "Redactor Senior"
          (pyTake 200 "Escribiendo artículo final...") :: tail :=
  (c1_verdict_parsing_rule (fun _ => Except.ok "INFORME")
    (fun _ => Except.ok "VEREDICTO: APROBADO") (fun _ _ => Except.ok "ART")
    "S" "TEMA" 0 2 "INFORME" "VEREDICTO: APROBADO" rfl rfl).2.2.2 (by decide)

/-! ## Claim C2 -/

/-- Counterexample to C2: a Validator output carrying neither token
(`"SIN VEREDICTO CLARO"`, an Ambiguous verdict) on every cycle leads to
three cycles with iterations remaining at cycles 1 and 2, yet the run
publishes no backtrack event at all and never amends the topic —
contradicting the claim that an Ambiguous verdict is treated identically
to a Rejected one (backtrack event published, topic amended). -/
theorem c2_counterexample :
    specParseVerdict "SIN VEREDICTO CLARO" = Verdict.ambiguous
    ∧ backtrackCount (NewsCrew_run (fun _ => Except.ok "INFORME")
        (fun _ => Except.ok "SIN VEREDICTO CLARO")
        (fun _ _ => Except.ok "ART") "S" "TEMA").2 = 0
    ∧ investigatorStarts (NewsCrew_run (fun _ => Except.ok "INFORME")
        (fun _ => Except.ok "SIN VEREDICTO CLARO")
        (fun _ _ => Except.ok "ART") "S" "TEMA").2 = 3
    ∧ (NewsCrew_run (fun _ => Except.ok "INFORME")
        (fun _ => Except.ok "SIN VEREDICTO CLARO")
        (fun _ _ => Except.ok "ART") "S" "TEMA").1.topic = "TEMA"
    ∧ (NewsCrew_run (fun _ => Except.ok "INFORME")
        (fun _ => Except.ok "SIN VEREDICTO CLARO")
        (fun _ _ => Except.ok "ART") "S" "TEMA").1.status = "error" := by
  decide

/-- C2 as amended: with iterations remaining, a Rejected verdict
publishes a backtrack event carrying the feedback (truncated to 300
characters by the event bus) and continues with the topic amended by the
feedback truncated to 200 characters; an Ambiguous verdict continues the
loop but publishes no backtrack event and leaves the topic unchanged. -/
theorem c2_amended_backtrack_on_rejection_only
    (inv anal : String → Except String String)
    (write : String → String → Except String String)
    (sid topic : String) (iteration fuel : Nat) (r a : String)
    (hinv : inv topic = Except.ok r) (hanal : anal r = Except.ok a) :
    (containsStr (pyUpper a) "RECHAZADO" = true → iteration + 1 < MAX_ITERATIONS →
      runFrom inv anal write sid topic iteration (fuel + 1) =
        ((runFrom inv anal write sid
            (topic ++ " (REFINAMIENTO: " ++ pyTake 200 a ++ ")") (iteration + 1) fuel).1,
          stageEvents topic r a ++
            Event.backtracking (pyTake 300 a) ::
              (runFrom inv anal write sid
                (topic ++ " (REFINAMIENTO: " ++ pyTake 200 a ++ ")")
                (iteration + 1) fuel).2))
    ∧ (containsStr (pyUpper a) "APROBADO" = false →
        containsStr (pyUpper a) "RECHAZADO" = false →
        runFrom inv anal write sid topic iteration (fuel + 1) =
          ((runFrom inv anal write sid topic (iteration + 1) fuel).1,
            stageEvents topic r a ++
              (runFrom inv anal write sid topic (iteration + 1) fuel).2)) :=
  ⟨fun hrej hit => runFrom_rejected_continue inv anal write sid topic iteration
      (fuel + 1) fuel r a rfl hinv hanal hrej hit,
   fun hA hR => runFrom_ambiguous inv anal write sid topic iteration
      (fuel + 1) fuel r a rfl hinv hanal hA hR⟩

/-- Witness for the amended C2: a rejection in cycle 1 of a concrete run
hands control to the loop on the amended topic. -/
theorem c2_witness :
    (runFrom (fun _ => Except.ok "INFORME") (fun _ => Except.ok "VEREDICTO: RECHAZADO")
      (fun _ _ => Except.ok "ART") "S" "TEMA" 0 (2 + 1)).1 =
    (runFrom (fun _ => Except.ok "INFORME") (fun _ => Except.ok "VEREDICTO: RECHAZADO")
      (fun _ _ => Except.ok "ART") "S"
      ("TEMA" ++ " (REFINAMIENTO: " ++ pyTake 200 "VEREDICTO: RECHAZADO" ++ ")")
      (0 + 1) 2).1 := by
  have h := (c2_amended_backtrack_on_rejection_only (fun _ => Except.ok "INFORME")
    (fun _ => Except.ok "VEREDICTO: RECHAZADO") (fun _ _ => Except.ok "ART")
    "S" "TEMA" 0 2 "INFORME" "VEREDICTO: RECHAZADO" rfl rfl).1 (by decide) (by decide)
  exact (congrArg Prod.fst h).trans rfl

/-! ## Event-count lemmas -/

theorem investigatorStarts_append (l1 l2 : List Event) :
    investigatorStarts (l1 ++ l2) = investigatorStarts l1 + investigatorStarts l2 := by
  simp [investigatorStarts, List.countP_append]

theorem investigatorStarts_backtracking_cons (f : String) (l : List Event) :
    investigatorStarts (Event.backtracking f :: l) = investigatorStarts l := by
  simp [investigatorStarts, List.countP_cons]

theorem investigatorStarts_stage (topic r a : String) :
    investigatorStarts (stageEvents topic r a) = 1 := by
  simp [investigatorStarts, stageEvents, List.countP_cons]

theorem composerStarts_append (l1 l2 : List Event) :
    composerStarts (l1 ++ l2) = composerStarts l1 + composerStarts l2 := by
  simp [composerStarts, List.countP_append]

theorem composerStarts_backtracking_cons (f : String) (l : List Event) :
    composerStarts (Event.backtracking f :: l) = composerStarts l := by
  simp [composerStarts, List.countP_cons]

theorem composerStarts_stage (topic r a : String) :
    composerStarts (stageEvents topic r a) = 0 := by
  simp [composerStarts, stageEvents, List.countP_cons]

theorem investigatorStarts_runFrom_le (inv anal : String → Except String String)
    (write : String → String → Except String String) (sid : String) :
    ∀ fuel topic iteration,
      investigatorStarts (runFrom inv anal write sid topic iteration fuel).2 ≤ fuel := by
  intro fuel
  induction fuel with
  | zero => intro topic iteration; simp [runFrom, investigatorStarts]
  | succ n ih =>
    intro topic iteration
    cases hinv : inv topic with
    | error e =>
      simp [runFrom, hinv, investigatorStarts, stageEvents, List.countP_cons]
    | ok r =>
      cases hanal : anal r with
      | error e =>
        simp [runFrom, hinv, hanal, investigatorStarts, stageEvents, List.countP_cons]
      | ok a =>
        by_cases happr : (containsStr (pyUpper a) "APROBADO" &&
            !containsStr (pyUpper a) "RECHAZADO") = true
        · rw [runFrom_approved inv anal write sid topic iteration (n + 1) n r a rfl
            hinv hanal happr]
          cases hw : write r a <;>
            simp [hw, investigatorStarts, stageEvents,
              List.countP_cons, List.countP_append]
        · by_cases hrej : containsStr (pyUpper a) "RECHAZADO" = true
          · by_cases hit : iteration + 1 < MAX_ITERATIONS
            · rw [runFrom_rejected_continue inv anal write sid topic iteration
                (n + 1) n r a rfl hinv hanal hrej hit]
              have hrec := ih (topic ++ " (REFINAMIENTO: " ++ pyTake 200 a ++ ")")
                (iteration + 1)
              simp only [investigatorStarts] at hrec ⊢
              simp [stageEvents, List.countP_cons, List.countP_append]
              omega
            · rw [runFrom_rejected_final inv anal write sid topic iteration
                (n + 1) n r a rfl hinv hanal hrej hit]
              simp [investigatorStarts, stageEvents, List.countP_cons]
          · have hR : containsStr (pyUpper a) "RECHAZADO" = false := by
              revert hrej
              cases containsStr (pyUpper a) "RECHAZADO" <;> simp
            have hA : containsStr (pyUpper a) "APROBADO" = false := by
              revert happr
              rw [hR]
              cases containsStr (pyUpper a) "APROBADO" <;> simp
            rw [runFrom_ambiguous inv anal write sid topic iteration
              (n + 1) n r a rfl hinv hanal hA hR]
            have hrec := ih topic (iteration + 1)
            simp only [investigatorStarts] at hrec ⊢
            simp [stageEvents, List.countP_cons, List.countP_append]
            omega

theorem investigatorStarts_runFrom_pos (inv anal : String → Except String String)
    (write : String → String → Except String String)
    (sid topic : String) (iteration fuel : Nat) :
    1 ≤ investigatorStarts (runFrom inv anal write sid topic iteration (fuel + 1)).2 := by
  cases hinv : inv topic with
  | error e =>
    simp [runFrom, hinv, investigatorStarts, stageEvents, List.countP_cons]
  | ok r =>
    cases hanal : anal r with
    | error e =>
      simp [runFrom, hinv, hanal, investigatorStarts, stageEvents, List.countP_cons]
    | ok a =>
      by_cases happr : (containsStr (pyUpper a) "APROBADO" &&
          !containsStr (pyUpper a) "RECHAZADO") = true
      · rw [runFrom_approved inv anal write sid topic iteration (fuel + 1) fuel r a rfl
          hinv hanal happr]
        cases hw : write r a <;>
          simp [hw, investigatorStarts, stageEvents,
            List.countP_cons, List.countP_append]
      · by_cases hrej : containsStr (pyUpper a) "RECHAZADO" = true
        · by_cases hit : iteration + 1 < MAX_ITERATIONS
          · rw [runFrom_rejected_continue inv anal write sid topic iteration
              (fuel + 1) fuel r a rfl hinv hanal hrej hit]
            simp [investigatorStarts, stageEvents, List.countP_cons, List.countP_append]
          · rw [runFrom_rejected_final inv anal write sid topic iteration
              (fuel + 1) fuel r a rfl hinv hanal hrej hit]
            simp [investigatorStarts, stageEvents, List.countP_cons]
        · have hR : containsStr (pyUpper a) "RECHAZADO" = false := by
            revert hrej
            cases containsStr (pyUpper a) "RECHAZADO" <;> simp
          have hA : containsStr (pyUpper a) "APROBADO" = false := by
            revert happr
            rw [hR]
            cases containsStr (pyUpper a) "APROBADO" <;> simp
          rw [runFrom_ambiguous inv anal write sid topic iteration
            (fuel + 1) fuel r a rfl hinv hanal hA hR]
          simp [investigatorStarts, stageEvents, List.countP_cons, List.countP_append]

/-! ## Claim C3 -/

/-- C3: every session runs between 1 and `MAX_ITERATIONS` (= 3)
research→validate cycles inclusive — counted by the Investigator
stage-start events — and the loop terminates (the embedded loop is a
total function). -/
theorem c3_cycle_count_bounds (inv anal : String → Except String String)
    (write : String → String → Except String String) (sid topic : String) :
    1 ≤ investigatorStarts (NewsCrew_run inv anal write sid topic).2 ∧
    investigatorStarts (NewsCrew_run inv anal write sid topic).2 ≤ MAX_ITERATIONS := by
  constructor
  · exact investigatorStarts_runFrom_pos inv anal write sid topic 0 2
  · exact investigatorStarts_runFrom_le inv anal write sid MAX_ITERATIONS topic 0

/-! ## Claim C4 -/

/-- C4: when the Analyst's text contains the rejection token on all
three cycles, `run` returns the error record whose message carries the
third cycle's feedback, with no article, and the Writer (Composer)
stage is never started. -/
theorem c4_all_rejected_fails (inv anal : String → Except String String)
    (write : String → String → Except String String)
    (sid topic : String) (r1 a1 r2 a2 r3 a3 : String)
    (h1 : inv topic = Except.ok r1) (h2 : anal r1 = Except.ok a1)
    (hr1 : containsStr (pyUpper a1) "RECHAZADO" = true)
    (h3 : inv (topic ++ " (REFINAMIENTO: " ++ pyTake 200 a1 ++ ")") = Except.ok r2)
    (h4 : anal r2 = Except.ok a2)
    (hr2 : containsStr (pyUpper a2) "RECHAZADO" = true)
    (h5 : inv (topic ++ " (REFINAMIENTO: " ++ pyTake 200 a1 ++ ")" ++
        " (REFINAMIENTO: " ++ pyTake 200 a2 ++ ")") = Except.ok r3)
    (h6 : anal r3 = Except.ok a3)
    (hr3 : containsStr (pyUpper a3) "RECHAZADO" = true) :
    (NewsCrew_run inv anal write sid topic).1.status = "error"
    ∧ (NewsCrew_run inv anal write sid topic).1.error =
        some ("Contenido rechazado después de " ++ toString MAX_ITERATIONS ++
          " intentos. Último feedback: " ++ a3)
    ∧ (NewsCrew_run inv anal write sid topic).1.article = none
    ∧ composerStarts (NewsCrew_run inv anal write sid topic).2 = 0 := by
  have e1 := runFrom_rejected_continue inv anal write sid topic 0
    MAX_ITERATIONS 2 r1 a1 rfl h1 h2 hr1 (by decide)
  have e2 := runFrom_rejected_continue inv anal write sid
    (topic ++ " (REFINAMIENTO: " ++ pyTake 200 a1 ++ ")") (0 + 1)
    2 1 r2 a2 rfl h3 h4 hr2 (by decide)
  have e3 := runFrom_rejected_final inv anal write sid
    (topic ++ " (REFINAMIENTO: " ++ pyTake 200 a1 ++ ")" ++
      " (REFINAMIENTO: " ++ pyTake 200 a2 ++ ")") (0 + 1 + 1)
    1 0 r3 a3 rfl h5 h6 hr3 (by decide)
  unfold NewsCrew_run
  rw [e1, e2, e3]
  refine ⟨rfl, rfl, rfl, ?_⟩
  simp [composerStarts, stageEvents, List.countP_cons, List.countP_append]

/-- Witness for C4: an Analyst that always answers
`"VEREDICTO: RECHAZADO"` drives a concrete run into the failed state. -/
theorem c4_witness :
    (NewsCrew_run (fun _ => Except.ok "INFORME")
      (fun _ => Except.ok "VEREDICTO: RECHAZADO")
      (fun _ _ => Except.ok "ART") "S" "TEMA").1.status = "error"
    ∧ (NewsCrew_run (fun _ => Except.ok "INFORME")
        (fun _ => Except.ok "VEREDICTO: RECHAZADO")
        (fun _ _ => Except.ok "ART") "S" "TEMA").1.error =
        some ("Contenido rechazado después de " ++ toString MAX_ITERATIONS ++
          " intentos. Último feedback: " ++ "VEREDICTO: RECHAZADO")
    ∧ (NewsCrew_run (fun _ => Except.ok "INFORME")
        (fun _ => Except.ok "VEREDICTO: RECHAZADO")
        (fun _ _ => Except.ok "ART") "S" "TEMA").1.article = none
    ∧ composerStarts (NewsCrew_run (fun _ => Except.ok "INFORME")
        (fun _ => Except.ok "VEREDICTO: RECHAZADO")
        (fun _ _ => Except.ok "ART") "S" "TEMA").2 = 0 :=
  c4_all_rejected_fails (fun _ => Except.ok "INFORME")
    (fun _ => Except.ok "VEREDICTO: RECHAZADO") (fun _ _ => Except.ok "ART")
    "S" "TEMA" "INFORME" "VEREDICTO: RECHAZADO" "INFORME" "VEREDICTO: RECHAZADO"
    "INFORME" "VEREDICTO: RECHAZADO"
    rfl rfl (by decide) rfl rfl (by decide) rfl rfl (by decide)

/-! ## Result-record invariant -/

theorem runFrom_result_invariant (inv anal : String → Except String String)
    (write : String → String → Except String String) (sid : String) :
    ∀ fuel topic iteration,
      ((runFrom inv anal write sid topic iteration fuel).1.status = "success" →
        (runFrom inv anal write sid topic iteration fuel).1.article.isSome = true ∧
        (runFrom inv anal write sid topic iteration fuel).1.error = none)
      ∧ ((runFrom inv anal write sid topic iteration fuel).1.status = "error" →
        (runFrom inv anal write sid topic iteration fuel).1.article = none ∧
        ∃ e, (runFrom inv anal write sid topic iteration fuel).1.error = some e ∧
          e ≠ "") := by
  intro fuel
  induction fuel with
  | zero =>
    intro topic iteration
    refine ⟨fun h => absurd h (by simp [runFrom]), fun _ => ⟨rfl, _, rfl, by decide⟩⟩
  | succ n ih =>
    intro topic iteration
    cases hinv : inv topic with
    | error e =>
      have hrun : (runFrom inv anal write sid topic iteration (n + 1)).1 =
          { status := "error", topic := topic, article := none,
            error := some ("Error durante ejecución de crew: " ++ e),
            iterations := none, session_id := sid } := by
        simp [runFrom, hinv]
      rw [hrun]
      exact ⟨fun h => absurd h (by simp), fun _ =>
        ⟨rfl, _, rfl, append_ne_empty_left _ _ (by decide)⟩⟩
    | ok r =>
      cases hanal : anal r with
      | error e =>
        have hrun : (runFrom inv anal write sid topic iteration (n + 1)).1 =
            { status := "error", topic := topic, article := none,
              error := some ("Error durante ejecución de crew: " ++ e),
              iterations := none, session_id := sid } := by
          simp [runFrom, hinv, hanal]
        rw [hrun]
        exact ⟨fun h => absurd h (by simp), fun _ =>
          ⟨rfl, _, rfl, append_ne_empty_left _ _ (by decide)⟩⟩
      | ok a =>
        by_cases happr : (containsStr (pyUpper a) "APROBADO" &&
            !containsStr (pyUpper a) "RECHAZADO") = true
        · rw [runFrom_approved inv anal write sid topic iteration (n + 1) n r a rfl
            hinv hanal happr]
          cases hw : write r a with
          | error e =>
            exact ⟨fun h => absurd h (by simp), fun _ =>
              ⟨rfl, _, rfl, append_ne_empty_left _ _ (by decide)⟩⟩
          | ok finalArticle =>
            exact ⟨fun _ => ⟨rfl, rfl⟩, fun h => absurd h (by simp)⟩
        · by_cases hrej : containsStr (pyUpper a) "RECHAZADO" = true
          · by_cases hit : iteration + 1 < MAX_ITERATIONS
            · rw [runFrom_rejected_continue inv anal write sid topic iteration
                (n + 1) n r a rfl hinv hanal hrej hit]
              exact ih (topic ++ " (REFINAMIENTO: " ++ pyTake 200 a ++ ")")
                (iteration + 1)
            · rw [runFrom_rejected_final inv anal write sid topic iteration
                (n + 1) n r a rfl hinv hanal hrej hit]
              refine ⟨fun h => absurd h (by simp), fun _ => ⟨rfl, _, rfl, ?_⟩⟩
              exact append_ne_empty_left _ _
                (length_append_pos_left _ _ (length_append_pos_left _ _ (by decide)))
          · have hR : containsStr (pyUpper a) "RECHAZADO" = false := by
              revert hrej
              cases containsStr (pyUpper a) "RECHAZADO" <;> simp
            have hA : containsStr (pyUpper a) "APROBADO" = false := by
              revert happr
              rw [hR]
              cases containsStr (pyUpper a) "APROBADO" <;> simp
            rw [runFrom_ambiguous inv anal write sid topic iteration
              (n + 1) n r a rfl hinv hanal hA hR]
            exact ih topic (iteration + 1)

/-! ## Claim C7 -/

/-- Counterexample to C7: with a Composer whose output is the empty
string, a session completes (status `"success"`) while the returned
article is empty — the claim's "non-empty article" does not hold. -/
theorem c7_counterexample :
    (NewsCrew_run (fun _ => Except.ok "INFORME")
      (fun _ => Except.ok "VEREDICTO: APROBADO")
      (fun _ _ => Except.ok "") "S" "TEMA").1.status = "success"
    ∧ (NewsCrew_run (fun _ => Except.ok "INFORME")
        (fun _ => Except.ok "VEREDICTO: APROBADO")
        (fun _ _ => Except.ok "") "S" "TEMA").1.article = some "" := by
  decide

/-- C7 as amended: a session ending `"success"` (Completed) carries an
article field — equal to the Composer's output, hence possibly empty —
and no error field; a session ending `"error"` (Failed) carries a
non-empty error and no article field. -/
theorem c7_amended_result_fields (inv anal : String → Except String String)
    (write : String → String → Except String String) (sid topic : String) :
    ((NewsCrew_run inv anal write sid topic).1.status = "success" →
      (NewsCrew_run inv anal write sid topic).1.article.isSome = true ∧
      (NewsCrew_run inv anal write sid topic).1.error = none)
    ∧ ((NewsCrew_run inv anal write sid topic).1.status = "error" →
      (NewsCrew_run inv anal write sid topic).1.article = none ∧
      ∃ e, (NewsCrew_run inv anal write sid topic).1.error = some e ∧ e ≠ "") :=
  runFrom_result_invariant inv anal write sid MAX_ITERATIONS topic 0

/-- Witness for the amended C7 on a concrete successful session. -/
theorem c7_witness :
    (NewsCrew_run (fun _ => Except.ok "INFORME")
      (fun _ => Except.ok "VEREDICTO: APROBADO")
      (fun _ _ => Except.ok "ART") "S" "TEMA").1.article.isSome = true ∧
    (NewsCrew_run (fun _ => Except.ok "INFORME")
      (fun _ => Except.ok "VEREDICTO: APROBADO")
      (fun _ _ => Except.ok "ART") "S" "TEMA").1.error = none :=
  (c7_amended_result_fields (fun _ => Except.ok "INFORME")
    (fun _ => Except.ok "VEREDICTO: APROBADO")
    (fun _ _ => Except.ok "ART") "S" "TEMA").1 (by decide)

/-! ## Claim C8 -/

theorem pyStrip_all_space {t : String} (h : ∀ c ∈ t.data, pyIsSpace c = true) :
    pyStrip t = "" := by
  unfold pyStrip
  have h1 : t.data.dropWhile pyIsSpace = [] := List.dropWhile_eq_nil_iff.mpr h
  rw [h1]
  rfl

/-- C8: a missing body, a body without a topic key, or a topic that
strips to the empty string (in particular a whitespace-only topic) is
rejected with a 400 response, no session id, and an unchanged session
registry; a topic with a non-empty strip gets a 202 response carrying
the fresh session id, and the session is registered as running. -/
theorem c8_submission_validation (body : Option (Option String))
    (now newId : String) (sessions : List (String × SessionEntry)) :
    ((body = none ∨ body = some none ∨
        (∃ t, body = some (some t) ∧ pyStrip t = "")) →
      (generate_article body now newId sessions).1.http_status = 400 ∧
      (generate_article body now newId sessions).1.session_id = none ∧
      (generate_article body now newId sessions).2 = sessions)
    ∧ (∀ t, body = some (some t) → pyStrip t ≠ "" →
      (generate_article body now newId sessions).1.http_status = 202 ∧
      (generate_article body now newId sessions).1.session_id = some newId ∧
      (generate_article body now newId sessions).2 =
        (newId, ⟨pyStrip t, now, "running"⟩) :: sessions)
    ∧ (∀ t, (∀ c ∈ t.data, pyIsSpace c = true) → pyStrip t = "") := by
  refine ⟨?_, ?_, fun t h => pyStrip_all_space h⟩
  · rintro (rfl | rfl | ⟨t, rfl, ht⟩)
    · exact ⟨rfl, rfl, rfl⟩
    · exact ⟨rfl, rfl, rfl⟩
    · simp [generate_article, ht]
  · rintro t rfl ht
    simp [generate_article, ht]

/-- Witness for C8: a whitespace-only topic is rejected with no
registry change, a real topic is accepted with a 202 and registered. -/
theorem c8_witness :
    ((generate_article (some (some "   ")) "T0" "ID1" []).1.http_status = 400 ∧
      (generate_article (some (some "   ")) "T0" "ID1" []).1.session_id = none ∧
      (generate_article (some (some "   ")) "T0" "ID1" []).2 = [])
    ∧ ((generate_article (some (some " hola ")) "T0" "ID1" []).1.http_status = 202 ∧
      (generate_article (some (some " hola ")) "T0" "ID1" []).1.session_id = some "ID1" ∧
      (generate_article (some (some " hola ")) "T0" "ID1" []).2 =
        ("ID1", ⟨pyStrip " hola ", "T0", "running"⟩) :: []) :=
  ⟨(c8_submission_validation (some (some "   ")) "T0" "ID1" []).1
      (Or.inr (Or.inr ⟨"   ", rfl, by decide⟩)),
   (c8_submission_validation (some (some " hola ")) "T0" "ID1" []).2.1
      " hola " rfl (by decide)⟩

end MultiAgentAI
